import Mathlib

/-!
Shallow embedding of `src/python/rmm/rmm.py` (the RMM python bridge):
the handle-tracked device memory manager (`RMMNumbaManager`), its
finalizer factory (`_make_finalizer`), the lifecycle normalization code
(`_initialize`, `_finalize`, `reinitialize`) and the cupy allocator hook
(`rmm_cupy_allocator`).

External collaborators (librmm's `DeviceBuffer` constructor, the CUDA
driver's `cuIpcGetMemHandle`, `rmm_getallocationoffset`, device identity)
are parameters of the embedded functions; calls into librmm's lifecycle
entry points are recorded as a trace.  Python exceptions are modelled with
`Except`; Python's `ctypes.c_uint64` truncation is explicit `% 2 ^ 64`.
-/

/-- Python exceptions the embedded code can raise: `KeyError` (from
`del allocations[handle]`), `MemoryError` (allocation failure raised by
`librmm.DeviceBuffer`), `RuntimeError` (`use_rmm_for_numba` without numba)
and `ModuleNotFoundError` (`rmm_cupy_allocator` without cupy). -/
inductive PyError where
  | keyError (key : Nat)
  | memoryError
  | runtimeError
  | moduleNotFoundError
deriving DecidableEq

/-- A buffer returned by the pool allocator (`librmm.DeviceBuffer`):
pointer value, size in bytes and owning stream. -/
structure DeviceBuffer where
  ptr : Nat
  size : Nat
  stream : Nat
deriving DecidableEq

/-- The manager's `self.allocations` python dict, mapping an integer
handle to the owning `DeviceBuffer`.  Modelled as an ordered association
list, matching python's insertion-ordered dict. -/
abbrev Registry : Type := List (Nat × DeviceBuffer)

/-- Truthiness of the dict: `if allocations:` is true iff non-empty. -/
def Registry.isEmpty (r : Registry) : Bool :=
  List.isEmpty r

/-- `handle in allocations` : whether the dict holds the key. -/
def Registry.contains (r : Registry) (h : Nat) : Bool :=
  List.any r fun p => p.1 == h

/-- Removal of every entry with the given key (the effect of a successful
`del allocations[h]`). -/
def Registry.erase (r : Registry) (h : Nat) : Registry :=
  List.filter (fun p => !(p.1 == h)) r

/-- `allocations[h] = b` : python dict assignment, overwriting in place
when the key exists and appending a new entry otherwise. -/
def Registry.setItem (r : Registry) (h : Nat) (b : DeviceBuffer) : Registry :=
  if Registry.contains r h then
    List.map (fun p => if p.1 == h then (h, b) else p) r
  else r ++ [(h, b)]

/-- `del allocations[h]` : removes the key, raising `KeyError` when the
key is absent. -/
def Registry.delItem (r : Registry) (h : Nat) : Except PyError Registry :=
  if Registry.contains r h then Except.ok (Registry.erase r h)
  else Except.error (PyError.keyError h)

/-- The closure produced by `_make_finalizer(handle, allocations)` (rmm.py
lines 244-272), acting on the registry state at invocation time:
`if allocations: del allocations[handle]`.  Returns the updated registry,
or the exception the `del` raises. -/
def finalizer (handle : Nat) (allocations : Registry) : Except PyError Registry :=
  if Registry.isEmpty allocations = false then Registry.delItem allocations handle
  else Except.ok allocations

/-- `RMMNumbaManager.reset`.  Modelled from the spec: the numba base class
`HostOnlyCUDAMemoryManager.reset()` is not in src/; per the source comment
(rmm.py lines 189-192) and the spec, it clears `self.allocations`. -/
def reset (_allocations : Registry) : Registry := []

/-- Modulus of python's `ctypes.c_uint64`. -/
def UINT64_MOD : Nat := 2 ^ 64

/-- The numba `cuda.MemoryPointer` that `memalloc` returns: the wrapped
pointer value, the size, and the handle its finalizer is bound to. -/
structure MemoryPointer where
  ptr : Nat
  size : Nat
  finalizer_handle : Nat
deriving DecidableEq

/-- `RMMNumbaManager.memalloc(nbytes, stream)` (rmm.py lines 153-160).
`deviceBufferNew` is the pool allocator collaborator
(`librmm.DeviceBuffer(size=nbytes, stream=stream)`), which returns a
buffer or raises.  On success the buffer's pointer value (after c_uint64
truncation) is stored in the registry and a `MemoryPointer` carrying that
pointer and a finalizer bound to it is returned; on failure the exception
propagates with the registry untouched (the raise happens on the first
line, before any registry mutation). -/
def memalloc (deviceBufferNew : Nat → Nat → Except PyError DeviceBuffer)
    (allocations : Registry) (nbytes : Nat) (stream : Nat) :
    Registry × Except PyError MemoryPointer :=
  match deviceBufferNew nbytes stream with
  | Except.error e => (allocations, Except.error e)
  | Except.ok buf =>
      (Registry.setItem allocations (buf.ptr % UINT64_MOD) buf,
       Except.ok (MemoryPointer.mk (buf.ptr % UINT64_MOD) nbytes
         (buf.ptr % UINT64_MOD)))

/-- `rmm_allocation_mode.PoolAllocation`. -/
def PoolAllocation : Nat := 1

/-- `rmm_allocation_mode.CudaManagedMemory`. -/
def CudaManagedMemory : Nat := 2

/-- The `allocation_mode` computed by `_initialize` (rmm.py lines 46-51):
starts at 0, or-ed with the pool and managed-memory flags. -/
def allocation_mode_of (pool_allocator managed_memory : Bool) : Nat :=
  (if pool_allocator then 0 ||| PoolAllocation else 0) |||
    (if managed_memory then CudaManagedMemory else 0)

/-- The `devices` argument of `_initialize`: `None`, a single int, or a
list of ints. -/
inductive DevicesArg where
  | none
  | int (d : Int)
  | list (l : List Int)
deriving DecidableEq

/-- Device normalization of `_initialize` (rmm.py lines 60-63):
`None` becomes `[0]`, a single int `d` becomes `[d]`, a list passes
through unchanged. -/
def normalize_devices : DevicesArg → List Int
  | DevicesArg.none => [0]
  | DevicesArg.int d => [d]
  | DevicesArg.list l => l

/-- Pool-size normalization of `_initialize` (rmm.py lines 53-58):
`if not pool_allocator: size = 0`,
`elif pool_allocator and size is None: size = 0`,
`elif pool_allocator and size == 0: size = 1`, else unchanged. -/
def normalize_pool_size (pool_allocator : Bool) (initial_pool_size : Option Int) : Int :=
  if pool_allocator = false then 0
  else if pool_allocator = true ∧ initial_pool_size = Option.none then 0
  else if pool_allocator = true ∧ initial_pool_size = some 0 then 1
  else Option.getD initial_pool_size 0

/-- The pool-size value `rmm_initialize` receives for "use the
allocator's default sizing policy": `_initialize` passes 0 when
`initial_pool_size` is `None` (the docstring: None indicates the default
size of the underlying memory pool). -/
def default_sizing_sentinel : Int := 0

/-- A call into the librmm lifecycle collaborator, recorded in a trace. -/
inductive LibrmmCall where
  | rmm_finalize
  | rmm_initialize' (allocation_mode : Nat) (initial_pool_size : Int)
      (devices : List Int) (logging : Bool)
deriving DecidableEq

/-- `_initialize(pool_allocator, managed_memory, initial_pool_size,
devices, logging)` (rmm.py lines 36-67): computes the allocation mode,
normalizes the pool size and the device list, and makes exactly one call
to `librmm.rmm_initialize`.  The result is the trace of librmm calls. -/
def _initialize' (pool_allocator managed_memory : Bool)
    (initial_pool_size : Option Int) (devices : DevicesArg) (logging : Bool) :
    List LibrmmCall :=
  [LibrmmCall.rmm_initialize' (allocation_mode_of pool_allocator managed_memory)
    (normalize_pool_size pool_allocator initial_pool_size)
    (normalize_devices devices) logging]

/-- `_finalize()` (rmm.py lines 70-74): one call to
`librmm.rmm_finalize`. -/
def _finalize : List LibrmmCall := [LibrmmCall.rmm_finalize]

/-- `reinitialize(...)` (rmm.py lines 77-114): `_finalize()` then
`_initialize(...)` with the caller's arguments forwarded unchanged; the
result is the concatenated trace of librmm calls. -/
def reinitialize' (pool_allocator managed_memory : Bool)
    (initial_pool_size : Option Int) (devices : DevicesArg) (logging : Bool) :
    List LibrmmCall :=
  _finalize ++ _initialize' pool_allocator managed_memory initial_pool_size devices logging

/-- The numba memory object handed to `get_ipc_handle`: the owner's base
allocation handle (`memory.owner.handle`), the device pointer value
(`memory.device_ctypes_pointer.value`) and the size (`memory.size`). -/
structure NumbaMemory where
  owner_handle : Nat
  device_pointer : Nat
  size : Nat
deriving DecidableEq

/-- The numba `IpcHandle(memory, ipchandle, size, source_info, offset)`
record as `get_ipc_handle` constructs it. -/
structure IpcHandleRecord where
  base : NumbaMemory
  handle_bytes : List Int
  size : Nat
  source_info : Nat
  offset : Int
deriving DecidableEq

/-- `RMMNumbaManager.get_ipc_handle(memory, stream)` (rmm.py lines
162-180).  Collaborators are parameters: `cuIpcGetMemHandle` fills the
64-byte platform handle from the owner handle (modelled as the byte at
each of the 64 indices of the `(ctypes.c_byte * 64)()` buffer),
`get_device_identity` is the current device's identity, and
`rmm_getallocationoffset` reports the allocation offset of a device
pointer on a stream. -/
def get_ipc_handle (cuIpcGetMemHandle : Nat → Fin 64 → Int)
    (get_device_identity : Nat) (rmm_getallocationoffset : Nat → Nat → Int)
    (memory : NumbaMemory) (stream : Nat) : IpcHandleRecord :=
  { base := memory,
    handle_bytes := List.ofFn fun i : Fin 64 => cuIpcGetMemHandle memory.owner_handle i,
    size := memory.size,
    source_info := get_device_identity,
    offset := rmm_getallocationoffset memory.device_pointer stream }

/-- The state-changing action of `use_rmm_for_numba`. -/
inductive NumbaAction where
  | set_memory_manager
deriving DecidableEq

/-- `use_rmm_for_numba()` (rmm.py lines 208-212): installs the manager
when numba is present, otherwise raises `RuntimeError` before taking any
action. -/
def use_rmm_for_numba (numba_available : Bool) : Except PyError (List NumbaAction) :=
  if numba_available then Except.ok [NumbaAction.set_memory_manager]
  else Except.error PyError.runtimeError

/-- The `cupy.cuda.UnownedMemory(ptr, size, owner, device_id)` record as
`rmm_cupy_allocator` constructs it. -/
structure UnownedMemory where
  ptr : Nat
  size : Nat
  owner : DeviceBuffer
  device_id : Int
deriving DecidableEq

/-- The `cupy.cuda.memory.MemoryPointer(mem, offset)` record. -/
structure CupyMemoryPointer where
  mem : UnownedMemory
  offset : Nat
deriving DecidableEq

/-- `rmm_cupy_allocator(nbytes)` (rmm.py lines 221-241): raises
`ModuleNotFoundError` when cupy is absent (before any allocation);
otherwise allocates a `DeviceBuffer`, sets `dev_id` to `-1` when the
buffer's pointer is truthy (nonzero) and to the current device id
otherwise, wraps the buffer in `UnownedMemory` and returns a
`MemoryPointer` at offset 0. -/
def rmm_cupy_allocator (cupy_available : Bool)
    (deviceBufferNew : Nat → Except PyError DeviceBuffer)
    (get_device_id : Int) (nbytes : Nat) : Except PyError CupyMemoryPointer :=
  if cupy_available = false then Except.error PyError.moduleNotFoundError
  else
    match deviceBufferNew nbytes with
    | Except.error e => Except.error e
    | Except.ok buf =>
        Except.ok
          { mem := { ptr := buf.ptr, size := buf.size, owner := buf,
                     device_id := if buf.ptr ≠ 0 then -1 else get_device_id },
            offset := 0 }

/-- A concrete two-entry registry used by concrete instantiations. -/
def sampleRegistry : Registry :=
  [(1, DeviceBuffer.mk 1 16 0), (2, DeviceBuffer.mk 2 16 0)]

/-- A pool allocator collaborator that always succeeds at pointer 4096. -/
def sampleAlloc : Nat → Nat → Except PyError DeviceBuffer :=
  fun nbytes stream => Except.ok (DeviceBuffer.mk 4096 nbytes stream)

/-- A pool allocator collaborator that always fails. -/
def failingAlloc : Nat → Nat → Except PyError DeviceBuffer :=
  fun _ _ => Except.error PyError.memoryError

/-- A cupy-path allocator collaborator that always succeeds. -/
def sampleCupyAlloc : Nat → Except PyError DeviceBuffer :=
  fun nbytes => Except.ok (DeviceBuffer.mk 8192 nbytes 0)

/-- A cupy-path allocator collaborator returning a null pointer. -/
def nullCupyAlloc : Nat → Except PyError DeviceBuffer :=
  fun nbytes => Except.ok (DeviceBuffer.mk 0 nbytes 0)

/-- A driver collaborator filling the IPC handle bytes with zeros. -/
def sampleDriverFill : Nat → Fin 64 → Int := fun _ _ => 0

/-- A pool model whose block start is the constant 4096. -/
def sampleBlockStart : Nat → Nat → Nat := fun _ _ => 4096

/-- The offset collaborator matching `sampleBlockStart`. -/
def sampleOffsetFn : Nat → Nat → Int := fun p _ => (p : Int) - 4096

/-- A memory object 256 bytes into the sample pool block. -/
def sampleMemory : NumbaMemory :=
  { owner_handle := 4096, device_pointer := 4352, size := 128 }

/-- A memory object at the very start of the sample pool block. -/
def sampleMemoryAtStart : NumbaMemory :=
  { owner_handle := 4096, device_pointer := 4096, size := 128 }

/-- Membership characterization of `Registry.contains`. -/
theorem Registry.contains_iff (r : Registry) (h : Nat) :
    Registry.contains r h = true ↔ ∃ p ∈ r, p.1 = h := by
  simp [Registry.contains, List.any_eq_true]

/-- After `Registry.erase r h`, the key `h` is gone. -/
theorem Registry.contains_erase (r : Registry) (h : Nat) :
    Registry.contains (Registry.erase r h) h = false := by
  rw [Bool.eq_false_iff]
  intro hc
  rcases (Registry.contains_iff _ _).1 hc with ⟨p, hp, hph⟩
  rcases List.mem_filter.1 hp with ⟨_, hkeep⟩
  simp [hph] at hkeep

/-- A registry holding a key is not empty. -/
theorem Registry.isEmpty_eq_false_of_contains (r : Registry) (h : Nat)
    (hc : Registry.contains r h = true) : Registry.isEmpty r = false := by
  cases r with
  | nil => simp [Registry.contains] at hc
  | cons p t => rfl

/-- `Registry.setItem` makes its key present. -/
theorem Registry.contains_setItem_self (r : Registry) (k : Nat) (b : DeviceBuffer) :
    Registry.contains (Registry.setItem r k b) k = true := by
  cases hc : Registry.contains r k with
  | true =>
    rcases (Registry.contains_iff r k).1 hc with ⟨p, hp, hph⟩
    rw [Registry.setItem, if_pos hc, Registry.contains_iff]
    exact ⟨(k, b), List.mem_map.2 ⟨p, hp, by simp [hph]⟩, rfl⟩
  | false =>
    rw [Registry.setItem, if_neg (by simp [hc]), Registry.contains_iff]
    exact ⟨(k, b), by simp, rfl⟩

/-- `Registry.setItem` preserves every key already present. -/
theorem Registry.contains_setItem_of_contains (r : Registry) (k h : Nat)
    (b : DeviceBuffer) (hc : Registry.contains r h = true) :
    Registry.contains (Registry.setItem r k b) h = true := by
  rcases (Registry.contains_iff r h).1 hc with ⟨p, hp, hph⟩
  cases hck : Registry.contains r k with
  | false =>
    rw [Registry.setItem, if_neg (by simp [hck]), Registry.contains_iff]
    exact ⟨p, List.mem_append_left _ hp, hph⟩
  | true =>
    rw [Registry.setItem, if_pos hck, Registry.contains_iff]
    cases hpk : (p.1 == k) with
    | true =>
      have hk : p.1 = k := by simpa using hpk
      exact ⟨(k, b), List.mem_map.2 ⟨p, hp, by simp [hpk]⟩, by rw [← hph, hk]⟩
    | false =>
      exact ⟨p, List.mem_map.2 ⟨p, hp, by simp [hpk]⟩, hph⟩

/-- C1 counterexample: with two live handles 1 and 2, running handle 1's
finalizer once succeeds, but invoking it a second time finds the registry
non-empty without the handle and `del allocations[1]` raises `KeyError`
to the invoking context, so a second invocation is not a no-op. -/
theorem C1_second_invocation_raises :
    finalizer 1 sampleRegistry = Except.ok [(2, DeviceBuffer.mk 2 16 0)] ∧
    finalizer 1 [(2, DeviceBuffer.mk 2 16 0)] = Except.error (PyError.keyError 1) := by
  exact ⟨rfl, rfl⟩

/-- C1 (amended): invoking the finalizer after the registry has been
emptied by `reset()` is a silent no-op, and more generally any invocation
on an empty registry raises nothing; but a second invocation for the same
handle is a silent no-op only when the registry is empty at that time —
when the registry is non-empty and no longer holds the handle, the
finalizer raises `KeyError` to the invoking context (deliberately, per
the source comment at rmm.py lines 265-268). -/
theorem C1_finalizer_raise_discipline (handle : Nat) (r : Registry) :
    finalizer handle (reset r) = Except.ok (reset r) ∧
    (Registry.isEmpty r = true → finalizer handle r = Except.ok r) ∧
    (Registry.isEmpty r = false → Registry.contains r handle = false →
      finalizer handle r = Except.error (PyError.keyError handle)) := by
  refine ⟨rfl, ?_, ?_⟩
  · intro he
    simp [finalizer, he]
  · intro hne hnc
    simp [finalizer, hne, Registry.delItem, hnc]

/-- C1 witness: the amended theorem applied at concrete inputs, both
inner hypotheses discharged by evaluation. -/
theorem C1_finalizer_raise_discipline_witness :
    finalizer 1 ([] : Registry) = Except.ok ([] : Registry) ∧
    finalizer 1 [(2, DeviceBuffer.mk 2 16 0)] = Except.error (PyError.keyError 1) :=
  ⟨(C1_finalizer_raise_discipline 1 []).2.1 rfl,
   (C1_finalizer_raise_discipline 1 [(2, DeviceBuffer.mk 2 16 0)]).2.2 rfl rfl⟩

/-- C2: when `memalloc` succeeds, the registry it leaves behind (the
state in force before the `MemoryPointer` is returned) contains the
returned pointer's value as a key, the finalizer is bound to exactly that
handle, and every previously tracked handle is still tracked — so every
handle allocated and not yet released is present in the registry. -/
theorem C2_memalloc_registers_handle
    (deviceBufferNew : Nat → Nat → Except PyError DeviceBuffer)
    (r : Registry) (nbytes stream : Nat) (mem : MemoryPointer)
    (hsucc : (memalloc deviceBufferNew r nbytes stream).2 = Except.ok mem) :
    Registry.contains (memalloc deviceBufferNew r nbytes stream).1 mem.ptr = true ∧
    mem.finalizer_handle = mem.ptr ∧
    ∀ h, Registry.contains r h = true →
      Registry.contains (memalloc deviceBufferNew r nbytes stream).1 h = true := by
  cases halloc : deviceBufferNew nbytes stream with
  | error e =>
    rw [memalloc, halloc] at hsucc
    simp at hsucc
  | ok buf =>
    rw [memalloc, halloc] at hsucc ⊢
    simp only [Except.ok.injEq] at hsucc
    subst hsucc
    refine ⟨Registry.contains_setItem_self r _ buf, rfl, ?_⟩
    intro h hc
    exact Registry.contains_setItem_of_contains r _ h buf hc

/-- C2 witness: a successful concrete allocation at pointer 4096 into an
empty registry, the success hypothesis discharged by evaluation. -/
theorem C2_memalloc_registers_handle_witness :
    Registry.contains (memalloc sampleAlloc [] 256 0).1
        (MemoryPointer.mk (4096 % UINT64_MOD) 256 (4096 % UINT64_MOD)).ptr = true ∧
    (MemoryPointer.mk (4096 % UINT64_MOD) 256 (4096 % UINT64_MOD)).finalizer_handle
        = (MemoryPointer.mk (4096 % UINT64_MOD) 256 (4096 % UINT64_MOD)).ptr ∧
    ∀ h, Registry.contains ([] : Registry) h = true →
      Registry.contains (memalloc sampleAlloc [] 256 0).1 h = true :=
  C2_memalloc_registers_handle sampleAlloc [] 256 0
    (MemoryPointer.mk (4096 % UINT64_MOD) 256 (4096 % UINT64_MOD)) rfl

/-- C3: for a handle present in the registry, a single finalizer
invocation succeeds (raises nothing) and afterwards the handle is no
longer a key of the registry. -/
theorem C3_finalizer_removes_handle (handle : Nat) (r : Registry)
    (hmem : Registry.contains r handle = true) :
    finalizer handle r = Except.ok (Registry.erase r handle) ∧
    Registry.contains (Registry.erase r handle) handle = false := by
  have hne := Registry.isEmpty_eq_false_of_contains r handle hmem
  refine ⟨?_, Registry.contains_erase r handle⟩
  simp [finalizer, hne, Registry.delItem, hmem]

/-- C3 witness: the theorem at the concrete two-entry registry, the
membership hypothesis discharged by evaluation. -/
theorem C3_finalizer_removes_handle_witness :
    finalizer 1 sampleRegistry = Except.ok (Registry.erase sampleRegistry 1) ∧
    Registry.contains (Registry.erase sampleRegistry 1) 1 = false :=
  C3_finalizer_removes_handle 1 sampleRegistry rfl

/-- C7: when the pool allocator cannot satisfy the request
(`librmm.DeviceBuffer` raises), `memalloc` propagates that error
synchronously and the registry it leaves behind is exactly the registry
it was given: no entry is inserted for the failed allocation. -/
theorem C7_memalloc_failure_leaves_registry
    (deviceBufferNew : Nat → Nat → Except PyError DeviceBuffer)
    (r : Registry) (nbytes stream : Nat) (e : PyError)
    (hfail : deviceBufferNew nbytes stream = Except.error e) :
    memalloc deviceBufferNew r nbytes stream = (r, Except.error e) := by
  rw [memalloc, hfail]

/-- C7 witness: the always-failing allocator at a concrete registry, the
failure hypothesis discharged by evaluation. -/
theorem C7_memalloc_failure_leaves_registry_witness :
    memalloc failingAlloc sampleRegistry 1024 0
      = (sampleRegistry, Except.error PyError.memoryError) :=
  C7_memalloc_failure_leaves_registry failingAlloc sampleRegistry 1024 0
    PyError.memoryError rfl

/-- C4: pool-size normalization of `_initialize`.  With
`pool_allocator = False` the size passed to `rmm_initialize` is 0
whatever `initial_pool_size` was; with `pool_allocator = True` and
`initial_pool_size = None` it is the default-sizing sentinel (0, the
value the docstring reserves for the allocator's default policy); with
`pool_allocator = True` and `initial_pool_size = 0` it is 1, a value
distinct from the sentinel. -/
theorem C4_pool_size_normalization (managed logging : Bool)
    (ips : Option Int) (d : DevicesArg) :
    _initialize' false managed ips d logging
      = [LibrmmCall.rmm_initialize' (allocation_mode_of false managed) 0
          (normalize_devices d) logging] ∧
    _initialize' true managed Option.none d logging
      = [LibrmmCall.rmm_initialize' (allocation_mode_of true managed)
          default_sizing_sentinel (normalize_devices d) logging] ∧
    _initialize' true managed (some 0) d logging
      = [LibrmmCall.rmm_initialize' (allocation_mode_of true managed) 1
          (normalize_devices d) logging] ∧
    (1 : Int) ≠ default_sizing_sentinel := by
  refine ⟨rfl, rfl, rfl, by decide⟩

/-- C5: `reinitialize` is exactly one `rmm_finalize` call followed by
exactly one `rmm_initialize` call, the initialize step receiving the
caller's `pool_allocator`, `managed_memory`, `initial_pool_size`,
`devices` and `logging` arguments unchanged (first conjunct: literally
`_finalize` then `_initialize` on the forwarded arguments; second
conjunct: the resulting two-call trace). -/
theorem C5_reinitialize_call_order (pool_allocator managed_memory : Bool)
    (initial_pool_size : Option Int) (devices : DevicesArg) (logging : Bool) :
    reinitialize' pool_allocator managed_memory initial_pool_size devices logging
      = _finalize ++
          _initialize' pool_allocator managed_memory initial_pool_size devices logging ∧
    reinitialize' pool_allocator managed_memory initial_pool_size devices logging
      = [LibrmmCall.rmm_finalize,
         LibrmmCall.rmm_initialize'
           (allocation_mode_of pool_allocator managed_memory)
           (normalize_pool_size pool_allocator initial_pool_size)
           (normalize_devices devices) logging] :=
  ⟨rfl, rfl⟩

/-- C6: device normalization of `_initialize`.  A single integer `d` is
passed to `rmm_initialize` as the one-element list `[d]`, `None` as
`[0]`, and an explicit collection `[1, 2]` is passed through; each of
these normalized results is non-empty. -/
theorem C6_devices_normalization (p m lg : Bool) (ips : Option Int) (d : Int) :
    _initialize' p m ips (DevicesArg.int d) lg
      = [LibrmmCall.rmm_initialize' (allocation_mode_of p m)
          (normalize_pool_size p ips) [d] lg] ∧
    _initialize' p m ips DevicesArg.none lg
      = [LibrmmCall.rmm_initialize' (allocation_mode_of p m)
          (normalize_pool_size p ips) [0] lg] ∧
    _initialize' p m ips (DevicesArg.list [1, 2]) lg
      = [LibrmmCall.rmm_initialize' (allocation_mode_of p m)
          (normalize_pool_size p ips) [1, 2] lg] ∧
    normalize_devices (DevicesArg.int d) ≠ [] ∧
    normalize_devices DevicesArg.none ≠ [] ∧
    normalize_devices (DevicesArg.list [1, 2]) ≠ [] := by
  refine ⟨rfl, rfl, rfl, ?_, ?_, ?_⟩ <;> simp [normalize_devices]

/-- C8: `get_ipc_handle` packages a 64-byte platform handle, the
buffer's size, the source device identity, and an offset equal to the
pool allocator's reported allocation offset for the memory's device
pointer on the given stream; when the allocator reports the byte
distance from the owning block's start, the offset is 0 for a buffer at
the block start and positive for a sub-allocation. -/
theorem C8_get_ipc_handle_packaging (drv : Nat → Fin 64 → Int) (devid : Nat)
    (offsetFn : Nat → Nat → Int) (blockStart : Nat → Nat → Nat)
    (memory : NumbaMemory) (stream : Nat)
    (hoff : ∀ p s, offsetFn p s = (p : Int) - (blockStart p s : Int)) :
    (get_ipc_handle drv devid offsetFn memory stream).handle_bytes.length = 64 ∧
    (get_ipc_handle drv devid offsetFn memory stream).size = memory.size ∧
    (get_ipc_handle drv devid offsetFn memory stream).source_info = devid ∧
    (get_ipc_handle drv devid offsetFn memory stream).base = memory ∧
    (get_ipc_handle drv devid offsetFn memory stream).offset
      = offsetFn memory.device_pointer stream ∧
    (memory.device_pointer = blockStart memory.device_pointer stream →
      (get_ipc_handle drv devid offsetFn memory stream).offset = 0) ∧
    (blockStart memory.device_pointer stream < memory.device_pointer →
      0 < (get_ipc_handle drv devid offsetFn memory stream).offset) := by
  refine ⟨by simp [get_ipc_handle], rfl, rfl, rfl, rfl, ?_, ?_⟩
  · intro heq
    show offsetFn memory.device_pointer stream = 0
    rw [hoff, ← heq]
    exact sub_self _
  · intro hlt
    show 0 < offsetFn memory.device_pointer stream
    rw [hoff]
    have hcast : (blockStart memory.device_pointer stream : Int)
        < (memory.device_pointer : Int) := by exact_mod_cast hlt
    omega

/-- C8 witness: a sub-allocation 256 bytes into a pool block starting at
4096, the offset-model hypothesis discharged definitionally. -/
theorem C8_get_ipc_handle_packaging_witness :
    (get_ipc_handle sampleDriverFill 7 sampleOffsetFn sampleMemory 0).handle_bytes.length = 64 ∧
    (get_ipc_handle sampleDriverFill 7 sampleOffsetFn sampleMemory 0).size
      = sampleMemory.size ∧
    (get_ipc_handle sampleDriverFill 7 sampleOffsetFn sampleMemory 0).source_info = 7 ∧
    (get_ipc_handle sampleDriverFill 7 sampleOffsetFn sampleMemory 0).base = sampleMemory ∧
    (get_ipc_handle sampleDriverFill 7 sampleOffsetFn sampleMemory 0).offset
      = sampleOffsetFn sampleMemory.device_pointer 0 ∧
    (sampleMemory.device_pointer = sampleBlockStart sampleMemory.device_pointer 0 →
      (get_ipc_handle sampleDriverFill 7 sampleOffsetFn sampleMemory 0).offset = 0) ∧
    (sampleBlockStart sampleMemory.device_pointer 0 < sampleMemory.device_pointer →
      0 < (get_ipc_handle sampleDriverFill 7 sampleOffsetFn sampleMemory 0).offset) :=
  C8_get_ipc_handle_packaging sampleDriverFill 7 sampleOffsetFn sampleBlockStart
    sampleMemory 0 (fun _ _ => rfl)

/-- C9: a requested integration whose framework is absent raises
immediately and explicitly: `use_rmm_for_numba` raises `RuntimeError`
when numba is unavailable (no manager is installed), and
`rmm_cupy_allocator` raises `ModuleNotFoundError` when cupy is
unavailable — for every allocator collaborator, so the error is returned
before any allocation or other state change. -/
theorem C9_unavailable_collaborator_raises :
    use_rmm_for_numba false = Except.error PyError.runtimeError ∧
    ∀ (deviceBufferNew : Nat → Except PyError DeviceBuffer)
      (get_device_id : Int) (nbytes : Nat),
      rmm_cupy_allocator false deviceBufferNew get_device_id nbytes
        = Except.error PyError.moduleNotFoundError :=
  ⟨rfl, fun _ _ _ => rfl⟩

/-- C10: when the pool allocation succeeds, `rmm_cupy_allocator` returns
a pointer at offset 0 of an `UnownedMemory` whose `ptr` and `size` are
the allocated buffer's, owned by that buffer, and whose `device_id` is
-1 whenever the buffer's pointer is nonzero, falling back to the current
device id only when the pointer is null. -/
theorem C10_cupy_allocator_success
    (deviceBufferNew : Nat → Except PyError DeviceBuffer)
    (get_device_id : Int) (nbytes : Nat) (buf : DeviceBuffer)
    (hsucc : deviceBufferNew nbytes = Except.ok buf) :
    rmm_cupy_allocator true deviceBufferNew get_device_id nbytes
      = Except.ok
          { mem := { ptr := buf.ptr, size := buf.size, owner := buf,
                     device_id := if buf.ptr ≠ 0 then -1 else get_device_id },
            offset := 0 } ∧
    (buf.ptr ≠ 0 → (if buf.ptr ≠ 0 then (-1 : Int) else get_device_id) = -1) ∧
    (buf.ptr = 0 → (if buf.ptr ≠ 0 then (-1 : Int) else get_device_id)
      = get_device_id) := by
  refine ⟨?_, ?_, ?_⟩
  · simp [rmm_cupy_allocator, hsucc]
  · intro hnz
    rw [if_pos hnz]
  · intro hz
    rw [if_neg (by simp [hz])]

/-- C10 witness: a successful concrete allocation at nonzero pointer
8192 with current device id 3, the success hypothesis discharged by
evaluation. -/
theorem C10_cupy_allocator_success_witness :
    rmm_cupy_allocator true sampleCupyAlloc 3 512
      = Except.ok
          { mem := { ptr := (DeviceBuffer.mk 8192 512 0).ptr,
                     size := (DeviceBuffer.mk 8192 512 0).size,
                     owner := DeviceBuffer.mk 8192 512 0,
                     device_id := if (DeviceBuffer.mk 8192 512 0).ptr ≠ 0 then -1 else 3 },
            offset := 0 } ∧
    ((DeviceBuffer.mk 8192 512 0).ptr ≠ 0 →
      (if (DeviceBuffer.mk 8192 512 0).ptr ≠ 0 then (-1 : Int) else 3) = -1) ∧
    ((DeviceBuffer.mk 8192 512 0).ptr = 0 →
      (if (DeviceBuffer.mk 8192 512 0).ptr ≠ 0 then (-1 : Int) else 3) = 3) :=
  C10_cupy_allocator_success sampleCupyAlloc 3 512 (DeviceBuffer.mk 8192 512 0) rfl
